import Mathlib

/-!
Verification of the `bird` CLI's resilient GraphQL request/pagination engine.

The definitions below are shallow embeddings of the TypeScript sources:
`paginateCursor` (src/lib/twitter-client-media.ts), the posting retry chain
and legacy fallback (src/lib/twitter-client-posting.ts), the engagement
mutation retry chain (src/lib/twitter-client-engagement.ts), and the
query-ID resolution and constructor guard of `TwitterClientBase`.
Asynchrony is modelled by passing an explicit oracle for each network fetch;
inter-page delays (`sleep`) have no influence on any returned value and are
dropped.  JavaScript's `undefined`/missing fields become `Option`,
truthiness tests on strings become emptiness tests, and thrown exceptions
become explicit `thrown` outcomes consumed by the call sites that catch
them.
-/

set_option maxRecDepth 4000

/-- One fetched page, mirroring the TS type `CursorPage<T>`:
`{ success: true, items, cursor? } | { success: false, error }`. -/
inductive CursorPage (T : Type) where
  | ok (items : List T) (cursor : Option String)
  | err (error : String)
deriving DecidableEq, Repr

/-- Result of `paginateCursor`, mirroring the TS type
`CursorPaginationResult<T>`: on success `{ success: true, items, nextCursor? }`;
on failure `{ success: false, error, items?, nextCursor? }`. -/
inductive PagResult (T : Type) where
  | ok (items : List T) (nextCursor : Option String)
  | fail (error : String) (items : Option (List T)) (nextCursor : Option String)
deriving DecidableEq, Repr

/-- A finished pagination run: the returned result together with the log of
`fetchPage` invocations (cursor argument passed, page returned).  The log is
ghost instrumentation used to state theorems about the run; the result
component is exactly what the TS function returns. -/
structure PagTrace (T : Type) where
  result : PagResult T
  log : List (Option String × CursorPage T)
deriving DecidableEq, Repr

/-- One step of the dedup accumulation in `paginateCursor`'s page-success
branch: `const key = opts.getKey(item); if (seen.has(key)) continue;
seen.add(key); items.push(item);`.  The seen-set is modelled as a list of
keys tested by membership. -/
def dedupStep {T : Type} (getKey : T → String) :
    List String × List T → T → List String × List T :=
  fun st item =>
    let key := getKey item
    if key ∈ st.1 then st else (key :: st.1, st.2 ++ [item])

/-- The `for (const item of page.items)` loop of `paginateCursor`. -/
def dedupFold {T : Type} (getKey : T → String)
    (st : List String × List T) (pageItems : List T) : List String × List T :=
  pageItems.foldl (dedupStep getKey) st

/-- `maxPages !== undefined && pagesFetched >= maxPages`. -/
def maxPagesReached : Option Nat → Nat → Bool
  | none, _ => false
  | some m, pagesFetched => m ≤ pagesFetched

/-- The `while (true)` loop of `paginateCursor`
(src/lib/twitter-client-media.ts).  `fetchPage` additionally receives the
invocation index so that an oracle can model a stateful TS closure; `fuel`
bounds the number of iterations (the TS loop may diverge, e.g. on an oracle
that keeps producing fresh cursors with no page limit), and `none` means the
fuel ran out before the loop returned.  The `sleep` between pages is dropped:
it does not affect any returned value. -/
def paginateLoop {T : Type} (getKey : T → String)
    (fetchPage : Nat → Option String → CursorPage T) (maxPages : Option Nat) :
    Nat → Nat → Nat → List String → List T → Option String →
    List (Option String × CursorPage T) → Option (PagTrace T)
  | 0, _, _, _, _, _, _ => none
  | fuel + 1, callIdx, pagesFetched, seen, items, cursor, log =>
    match fetchPage callIdx cursor with
    | .err e =>
      if items.isEmpty then
        some ⟨.fail e none none, log ++ [(cursor, .err e)]⟩
      else
        some ⟨.fail e (some items) cursor, log ++ [(cursor, .err e)]⟩
    | .ok pageItems pageCursor =>
      let log' := log ++ [(cursor, .ok pageItems pageCursor)]
      let pagesFetched' := pagesFetched + 1
      let st := dedupFold getKey (seen, items) pageItems
      if pageCursor = none ∨ pageCursor = some "" ∨ pageCursor = cursor then
        some ⟨.ok st.2 none, log'⟩
      else if maxPagesReached maxPages pagesFetched' then
        some ⟨.ok st.2 pageCursor, log'⟩
      else
        paginateLoop getKey fetchPage maxPages fuel (callIdx + 1) pagesFetched'
          st.1 st.2 pageCursor log'

/-- `paginateCursor` (src/lib/twitter-client-media.ts): empty accumulator and
seen set, caller-supplied starting cursor, zero pages fetched. -/
def paginateCursor {T : Type} (getKey : T → String)
    (fetchPage : Nat → Option String → CursorPage T) (maxPages : Option Nat)
    (startCursor : Option String) (fuel : Nat) : Option (PagTrace T) :=
  paginateLoop getKey fetchPage maxPages fuel 0 0 [] [] startCursor []

/-- Items carried by a pagination result: the `items` of a success, the
partial `items` of a partial failure, nothing for a bare failure. -/
def itemsOf {T : Type} : PagResult T → List T
  | .ok items _ => items
  | .fail _ (some items) _ => items
  | .fail _ none _ => []

/-- All items served by the successful pages of a run, in encounter order. -/
def consumedOf {T : Type} : List (Option String × CursorPage T) → List T
  | [] => []
  | (_, .ok its _) :: rest => its ++ consumedOf rest
  | (_, .err _) :: rest => consumedOf rest

/-- Number of successful pages in a log. -/
def pagesIn {T : Type} : List (Option String × CursorPage T) → Nat
  | [] => 0
  | (_, .ok _ _) :: rest => pagesIn rest + 1
  | (_, .err _) :: rest => pagesIn rest

/-- Declarative first-occurrence filter: keeps an element iff its key was not
kept before (relative to an already-seen key list). -/
def firstOccurAux {T : Type} (getKey : T → String) :
    List String → List T → List T
  | _, [] => []
  | seen, x :: xs =>
    if getKey x ∈ seen then firstOccurAux getKey seen xs
    else x :: firstOccurAux getKey (getKey x :: seen) xs

/-- Declarative specification of deduplication in first-encounter order. -/
def firstOccur {T : Type} (getKey : T → String) (l : List T) : List T :=
  firstOccurAux getKey [] l

/-- Outcome of one `fetchWithTimeout` call with a JSON body of type `B`:
either the underlying fetch (or timeout abort) threw, or an HTTP response
arrived with a status, a raw text (read on non-2xx statuses) and a parsed
body. -/
inductive FetchOutcome (B : Type) where
  | thrown (msg : String)
  | resp (status : Nat) (text : String) (body : B)

/-- `response.ok`: status in the 2xx range. -/
def httpOk (status : Nat) : Bool := 200 ≤ status && status < 300

/-- `HTTP ${response.status}: ${text.slice(0, 200)}`. -/
def httpErrorMsg (status : Nat) (text : String) : String :=
  "HTTP " ++ toString status ++ ": " ++ text.take 200

/-- One element of a GraphQL `errors` array: `{ message, code? }`. -/
structure ApiError where
  message : String
  code : Option Int
deriving DecidableEq, Repr

/-- JavaScript truthiness on an optional string: `undefined` and `""` are
falsy. -/
def truthyOpt : Option String → Option String
  | none => none
  | some s => if s = "" then none else some s

/-- The known locations of the created tweet's id inside
`data.data?.create_tweet?.tweet_results?.result`: `rest_id`,
`tweet?.rest_id`, and `legacy?.id_str`. -/
structure TweetResultNode where
  rest_id : Option String
  tweet_rest_id : Option String
  legacy_id_str : Option String
deriving DecidableEq, Repr

/-- Parsed body of a `CreateTweet` response: the top-level `errors` array and
the (possibly missing) result node. -/
structure CreateTweetBody where
  errors : List ApiError
  result : Option TweetResultNode
deriving DecidableEq, Repr

/-- Parsed body of a legacy `statuses/update` response; `id` stands for
`String(data.id)` when the `id` field is present. -/
structure StatusUpdateBody where
  id_str : Option String
  id : Option String
  errors : List ApiError
deriving DecidableEq, Repr

/-- The pieces of the `CreateTweet` GraphQL variables that influence control
flow and the legacy fallback: `tweet_text` (a string when set),
`reply.in_reply_to_tweet_id`, and the media ids. -/
structure TweetVars where
  tweet_text : Option String
  in_reply_to_tweet_id : Option String
  media_ids : List String
deriving DecidableEq, Repr

/-- `TweetResult`: `{ success: true, tweetId } | { success: false, error }`. -/
inductive TweetResult where
  | ok (tweetId : String)
  | fail (error : String)
deriving DecidableEq, Repr

/-- `BookmarkMutationResult`: `{ success: true } | { success: false, error }`. -/
inductive MutationResult where
  | ok
  | fail (error : String)
deriving DecidableEq, Repr

/-- Parsed body of an engagement mutation response: the messages of the
`errors` array. -/
structure EngBody where
  errors : List String
deriving DecidableEq, Repr

/-- Environment of one `createTweet` call: the oracle for the (up to three)
`CreateTweet` endpoint fetches, the oracle for the single legacy
`statuses/update` fetch the fallback may perform, and the outcome of
`verifyTweetByFetching` (which is internally try/caught and returns the
verified id or nothing; its internal fetches are abstracted away). -/
structure PostEnv where
  fetches : Nat → FetchOutcome CreateTweetBody
  statusUpdate : FetchOutcome StatusUpdateBody
  verify : Option String

/-- Environment of one `performEngagementMutation` call: the oracle for its
(up to three) endpoint fetches. -/
structure EngEnv where
  fetches : Nat → FetchOutcome EngBody

/-- Modelled from the spec: the URL constants module
(twitter-client-constants.ts) is not among the sources; the endpoint
addresses are opaque distinct strings and only their identity matters. -/
def TWITTER_API_BASE : String := "TWITTER_API_BASE"

/-- Modelled from the spec: generic GraphQL POST endpoint address (constants
module not among the sources). -/
def TWITTER_GRAPHQL_POST_URL : String := "TWITTER_GRAPHQL_POST_URL"

/-- Modelled from the spec: legacy form-encoded `statuses/update` endpoint
address (constants module not among the sources). -/
def TWITTER_STATUS_UPDATE_URL : String := "TWITTER_STATUS_UPDATE_URL"

/-- `formatErrors`: `msg (code)` when a numeric code is present, joined with
`", "`. -/
def formatErrors (errors : List ApiError) : String :=
  String.intercalate ", "
    (errors.map (fun e =>
      match e.code with
      | some c => e.message ++ " (" ++ toString c ++ ")"
      | none => e.message))

/-- `'Tweet not found after posting - may have been filtered or failed
silently'`. -/
def noTweetFound : String :=
  "Tweet not found after posting - may have been filtered or failed silently"

/-- `extractTweetIdFromResponse`: first truthy one of `result.rest_id`,
`result.tweet?.rest_id`, `result.legacy?.id_str`. -/
def extractTweetIdFromResponse (b : CreateTweetBody) : Option String :=
  match b.result with
  | none => none
  | some r =>
    match truthyOpt r.rest_id with
    | some id => some id
    | none =>
      match truthyOpt r.tweet_rest_id with
      | some id => some id
      | none => truthyOpt r.legacy_id_str

/-- `statusUpdateInputFromCreateTweetVariables`: `null` when `tweet_text` is
not a truthy string, otherwise the text plus the optional reply id and media
ids (the latter two only feed request parameters). -/
def statusUpdateInputFromCreateTweetVariables (vars : TweetVars) :
    Option (String × Option String × List String) :=
  match vars.tweet_text with
  | none => none
  | some t => if t = "" then none else some (t, vars.in_reply_to_tweet_id, vars.media_ids)

/-- `postStatusUpdate`: one legacy form-encoded write; its own try/catch
converts a thrown fetch into a failure result. -/
def postStatusUpdate (o : FetchOutcome StatusUpdateBody) : TweetResult :=
  match o with
  | .thrown m => .fail m
  | .resp s t b =>
    if httpOk s then
      if b.errors.isEmpty then
        match truthyOpt (match b.id_str with | some v => some v | none => b.id) with
        | some id => .ok id
        | none => .fail noTweetFound
      else .fail (formatErrors b.errors)
    else .fail (httpErrorMsg s t)

/-- `tryStatusUpdateFallback`: `null` (and no fetch) unless some error has
code 226 and the variables carry a truthy text; otherwise one
`postStatusUpdate` attempt, whose success is returned as-is and whose failure
is reported with both errors concatenated.  The second component counts the
status-update fetches performed (0 or 1). -/
def tryStatusUpdateFallback (env : PostEnv) (errors : List ApiError)
    (vars : TweetVars) : Option TweetResult × Nat :=
  if errors.any (fun e => e.code = some 226) then
    match statusUpdateInputFromCreateTweetVariables vars with
    | none => (none, 0)
    | some _ =>
      match postStatusUpdate env.statusUpdate with
      | .ok id => (some (.ok id), 1)
      | .fail ferr =>
        (some (.fail (formatErrors errors ++ " | fallback: " ++ ferr)), 1)
  else (none, 0)

/-- A finished `createTweet` call: the returned result, the addresses of the
`fetchWithTimeout` calls it made in order (endpoint attempts and the legacy
fallback;  the fetches inside the abstracted `verifyTweetByFetching` are not
listed), and a ghost count of legacy-fallback fetches. -/
structure CreateRun where
  result : TweetResult
  urls : List String
  fallbackCalls : Nat
deriving DecidableEq, Repr

/-- Body handling shared by `createTweet`'s primary and generic-endpoint
paths (the TS repeats the same block in both): API-level errors trigger the
226 fallback or are formatted; otherwise the tweet id is extracted, or the
post is verified by re-fetching, or the not-found failure is reported. -/
def handleCreateBody (env : PostEnv) (vars : TweetVars) (b : CreateTweetBody)
    (urls : List String) : CreateRun :=
  if b.errors.isEmpty then
    match extractTweetIdFromResponse b with
    | some id => ⟨.ok id, urls, 0⟩
    | none =>
      match truthyOpt vars.tweet_text with
      | some _ =>
        match env.verify with
        | some vid => ⟨.ok vid, urls, 0⟩
        | none => ⟨.fail noTweetFound, urls, 0⟩
      | none => ⟨.fail noTweetFound, urls, 0⟩
  else
    match tryStatusUpdateFallback env b.errors vars with
    | (fb, n) =>
      let urls' := if n = 0 then urls else urls ++ [TWITTER_STATUS_UPDATE_URL]
      match fb with
      | some res => ⟨res, urls', n⟩
      | none => ⟨.fail (formatErrors b.errors), urls', n⟩

/-- `createTweet` (src/lib/twitter-client-posting.ts): attempt 1 at the
operation URL built from the first resolved query id `q1`; on HTTP 404,
query ids are force-refreshed, the id re-resolved to `q2`, URL and body
rebuilt, and the request retried; on a second 404 one final attempt goes to
the generic GraphQL POST endpoint.  The surrounding try/catch converts any
thrown fetch into a failure result.  The prologue before the try block
(`ensureClientUserId`, `getQueryId`) performs no `fetchWithTimeout` call of
its own: `ensureClientUserId` returns early or delegates to
`getCurrentUser`, which returns a discriminated result (spec section 7's
propagation policy), and `getQueryId` is a cache lookup (spec section 4.1),
so the fetch oracle starts at attempt 1. -/
def createTweet (env : PostEnv) (vars : TweetVars) (q1 q2 : String) : CreateRun :=
  let u1 := TWITTER_API_BASE ++ "/" ++ q1 ++ "/CreateTweet"
  let u2 := TWITTER_API_BASE ++ "/" ++ q2 ++ "/CreateTweet"
  match env.fetches 0 with
  | .thrown m => ⟨.fail m, [u1], 0⟩
  | .resp s t b =>
    if s = 404 then
      match env.fetches 1 with
      | .thrown m => ⟨.fail m, [u1, u2], 0⟩
      | .resp s2 t2 b2 =>
        if s2 = 404 then
          match env.fetches 2 with
          | .thrown m => ⟨.fail m, [u1, u2, TWITTER_GRAPHQL_POST_URL], 0⟩
          | .resp s3 t3 b3 =>
            if httpOk s3 then
              handleCreateBody env vars b3 [u1, u2, TWITTER_GRAPHQL_POST_URL]
            else ⟨.fail (httpErrorMsg s3 t3), [u1, u2, TWITTER_GRAPHQL_POST_URL], 0⟩
        else
          if httpOk s2 then handleCreateBody env vars b2 [u1, u2]
          else ⟨.fail (httpErrorMsg s2 t2), [u1, u2], 0⟩
    else
      if httpOk s then handleCreateBody env vars b [u1]
      else ⟨.fail (httpErrorMsg s t), [u1], 0⟩

/-- A finished engagement mutation: result plus the addresses fetched. -/
structure EngRun where
  result : MutationResult
  urls : List String
deriving DecidableEq, Repr

/-- `parseResponse` inside `performEngagementMutation`. -/
def engParse (s : Nat) (t : String) (b : EngBody) : MutationResult :=
  if httpOk s then
    if b.errors.isEmpty then .ok
    else .fail (String.intercalate ", " b.errors)
  else .fail (httpErrorMsg s t)

/-- `performEngagementMutation` (src/lib/twitter-client-engagement.ts): same
404 retry chain as `createTweet`, the third (generic-endpoint) response being
parsed as final whatever its status.  The try/catch converts thrown fetches
into failure results. -/
def performEngagementMutation (env : EngEnv) (opName q1 q2 : String) : EngRun :=
  let u1 := TWITTER_API_BASE ++ "/" ++ q1 ++ "/" ++ opName
  let u2 := TWITTER_API_BASE ++ "/" ++ q2 ++ "/" ++ opName
  match env.fetches 0 with
  | .thrown m => ⟨.fail m, [u1]⟩
  | .resp s t b =>
    if s = 404 then
      match env.fetches 1 with
      | .thrown m => ⟨.fail m, [u1, u2]⟩
      | .resp s2 t2 b2 =>
        if s2 = 404 then
          match env.fetches 2 with
          | .thrown m => ⟨.fail m, [u1, u2, TWITTER_GRAPHQL_POST_URL]⟩
          | .resp s3 t3 b3 => ⟨engParse s3 t3 b3, [u1, u2, TWITTER_GRAPHQL_POST_URL]⟩
        else ⟨engParse s2 t2 b2, [u1, u2]⟩
    else ⟨engParse s t b, [u1]⟩

/-- Association-list lookup of an operation name in the runtime query-id
cache. -/
def lookupQueryId (cache : List (String × String)) (op : String) : Option String :=
  match cache.find? (fun e => e.1 == op) with
  | some e => some e.2
  | none => none

/-- Modelled from the spec: `runtimeQueryIds.getQueryId`
(runtime-query-ids.ts is not among the sources).  Per spec section 4.1 the
resolver looks the operation up in the process-wide cache; the lookup is
read-only, so the cache is returned unchanged.  State-passing makes the
absence of mutation expressible. -/
def runtimeGetQueryId (cache : List (String × String)) (op : String) :
    Option String × List (String × String) :=
  (lookupQueryId cache op, cache)

/-- `TwitterClientBase.getQueryId`:
`(await runtimeQueryIds.getQueryId(operationName)) ?? QUERY_IDS[operationName]`.
The baked-in table `QUERY_IDS` (constants module, not among the sources) is
abstracted as a total map from operation names to identifiers. -/
def getQueryId (queryIdDefaults : String → String)
    (cache : List (String × String)) (op : String) :
    String × List (String × String) :=
  let r := runtimeGetQueryId cache op
  ((r.1.getD (queryIdDefaults op)), r.2)

/-- One block of an article's block-structured rich-text document: a type tag
(`header-one` marks a top-level heading) and its text. -/
structure ArticleBlock where
  blockType : String
  text : String
deriving DecidableEq, Repr

/-- An article: the stored title plus the rich-content blocks
(`article.article_results.result.content_state.blocks`). -/
structure ArticleContent where
  title : String
  blocks : List ArticleBlock
deriving DecidableEq, Repr

/-- Modelled from the spec: block rendering inside `extractArticleText`
(twitter-client-utils.ts is not among the sources).  Per spec section 4.4,
each content block is rendered to one line; a block tagged as a top-level
heading whose text equals the already-known article title is rendered as a
single markdown-style heading line and not duplicated. -/
def renderArticleBlock (title : String) (b : ArticleBlock) : String :=
  if b.blockType = "header-one" ∧ b.text = title then "# " ++ title else b.text

/-- Modelled from the spec: `extractArticleText`
(twitter-client-utils.ts is not among the sources).  Renders each rich-text
block to one line and joins the lines, promoting a leading heading block that
matches the stored title to the markdown heading itself so the title is not
duplicated. -/
def extractArticleText (a : ArticleContent) : String :=
  String.intercalate "\n" (a.blocks.map (renderArticleBlock a.title))

/-- `options.cookies`: the session cookie values handed to the constructor;
absent and empty values are both modelled by `""` for the required cookies
(JavaScript truthiness) and by `Option` for the optional header. -/
structure ClientCookies where
  authToken : String
  ct0 : String
  cookieHeader : Option String
deriving DecidableEq, Repr

/-- The `TwitterClientOptions` fields the base constructor reads.
`quoteDepth` normalization lives in the utils module (not among the sources)
and the random client uuid/device id are irrelevant to the claims, so they
are omitted. -/
structure ClientOptions where
  cookies : ClientCookies
  userAgent : Option String
  timeoutMs : Option Nat
deriving DecidableEq, Repr

/-- The session state a constructed client holds. -/
structure ClientState where
  authToken : String
  ct0 : String
  cookieHeader : String
  userAgent : String
  timeoutMs : Option Nat
deriving DecidableEq, Repr

/-- The constructor's default user agent string. -/
def defaultUserAgent : String :=
  "Mozilla/5.0 (Macintosh; Intel Mac OS X 10_15_7) AppleWebKit/537.36 (KHTML, like Gecko) Chrome/131.0.0.0 Safari/537.36"

/-- `TwitterClientBase`'s constructor: throws when `authToken` or `ct0` is
falsy, otherwise populates the session state, defaulting the cookie header to
`auth_token=...; ct0=...` and the user agent to the baked-in string when the
supplied values are falsy. -/
def mkTwitterClientBase (options : ClientOptions) : Except String ClientState :=
  if options.cookies.authToken = "" ∨ options.cookies.ct0 = "" then
    .error "Both authToken and ct0 cookies are required"
  else
    .ok
      { authToken := options.cookies.authToken
        ct0 := options.cookies.ct0
        cookieHeader :=
          (truthyOpt options.cookies.cookieHeader).getD
            ("auth_token=" ++ options.cookies.authToken ++ "; ct0=" ++ options.cookies.ct0)
        userAgent := (truthyOpt options.userAgent).getD defaultUserAgent
        timeoutMs := options.timeoutMs }

/-- Two-page run used as a witness: page 1 serves `a, b` with a fresh cursor,
page 2 serves the duplicate `b` plus `c` with no cursor. -/
def exOracle : Nat → Option String → CursorPage String :=
  fun i _ =>
    match i with
    | 0 => .ok ["a", "b"] (some "c1")
    | 1 => .ok ["b", "c"] none
    | _ => .err "done"

/-- The spec's concrete scenario B: page 1 serves tweet `dup` plus cursor
`p2`; page 2 serves `dup` again plus the fresh cursor `p3`; no third page is
available. -/
def scenarioBOracle : Nat → Option String → CursorPage String :=
  fun i _ =>
    match i with
    | 0 => .ok ["dup"] (some "p2")
    | 1 => .ok ["dup"] (some "p3")
    | _ => .err "no page"

/-- An endless supply of one-item pages with fresh-looking cursors. -/
def onePageOracle : Nat → Option String → CursorPage String :=
  fun _ _ => .ok ["x"] (some "c1")

/-- A run whose second fetch fails after one item was accumulated. -/
def failOracle : Nat → Option String → CursorPage String :=
  fun i _ =>
    match i with
    | 0 => .ok ["a"] (some "c1")
    | _ => .err "boom"

/-- A create-tweet body with no errors whose result node carries the id in
its primary location. -/
def okCreateBody (id : String) : CreateTweetBody :=
  ⟨[], some ⟨some id, none, none⟩⟩

/-- Posting environment whose endpoint answers 404 twice and then succeeds
with tweet id `99` at the generic endpoint; fallback and verification are
never reached. -/
def env404twice : PostEnv where
  fetches := fun i =>
    match i with
    | 0 => .resp 404 "Not found" ⟨[], none⟩
    | 1 => .resp 404 "Not found" ⟨[], none⟩
    | _ => .resp 200 "" (okCreateBody "99")
  statusUpdate := .thrown "unused"
  verify := none

/-- Posting environment whose first response is a 2xx body carrying the
automated-request error code 226. -/
def env226 : PostEnv where
  fetches := fun _ => .resp 200 "" ⟨[⟨"Automated request", some 226⟩], none⟩
  statusUpdate := .resp 200 "" ⟨some "777", none, []⟩
  verify := none

/-- Variables of a plain `tweet("hi")` call. -/
def varsHi : TweetVars := ⟨some "hi", none, []⟩

/-- Variables whose tweet text is the empty string (`tweet("")`). -/
def varsEmpty : TweetVars := ⟨some "", none, []⟩

/-- Engagement environment: 404 then success. -/
def engEnv404 : EngEnv where
  fetches := fun i =>
    match i with
    | 0 => .resp 404 "Not found" ⟨[]⟩
    | _ => .resp 200 "" ⟨[]⟩

/-- Posting environment whose very first fetch throws. -/
def envThrow : PostEnv where
  fetches := fun _ => .thrown "network down"
  statusUpdate := .thrown "network down"
  verify := none

/-- Engagement environment whose very first fetch throws. -/
def engEnvThrow : EngEnv where
  fetches := fun _ => .thrown "network down"

/-- Posting environment whose endpoint answers 404 once and then succeeds
with tweet id `42`. -/
def env404once : PostEnv where
  fetches := fun i =>
    match i with
    | 0 => .resp 404 "Not found" ⟨[], none⟩
    | _ => .resp 200 "" (okCreateBody "42")
  statusUpdate := .thrown "unused"
  verify := none

/-- `s.startsWith(pre)`, realised on the character lists so that it reduces
by kernel evaluation. -/
def strStartsWith (s pre : String) : Bool :=
  List.isPrefixOf pre.data s.data

/-- `mediaCategoryForMime`: `tweet_gif` for `image/gif`, `tweet_image` for
other images, `tweet_video` for videos, nothing otherwise. -/
def mediaCategoryForMime (mimeType : String) : Option String :=
  if strStartsWith mimeType "image/" then
    if mimeType = "image/gif" then some "tweet_gif" else some "tweet_image"
  else if strStartsWith mimeType "video/" then some "tweet_video"
  else none

/-- `UploadMediaResult`:
`{ success: true, mediaId } | { success: false, error }`. -/
inductive UploadMediaResult where
  | ok (mediaId : String)
  | fail (error : String)
deriving DecidableEq, Repr

/-- `processing_info.error`: `{ message?, name? }`. -/
structure ProcessingError where
  message : Option String
  name : Option String
deriving DecidableEq, Repr

/-- `processing_info` of a FINALIZE/STATUS response; `check_after_secs` only
feeds the sleep duration and never a returned value. -/
structure ProcessingInfo where
  state : Option String
  check_after_secs : Option Nat
  error : Option ProcessingError
deriving DecidableEq, Repr

/-- Parsed body of an upload-endpoint response: the INIT media-id fields
(`media_id` standing for `String(media_id)` when present) and the
FINALIZE/STATUS `processing_info`. -/
structure UploadBody where
  media_id_string : Option String
  media_id : Option String
  processing_info : Option ProcessingInfo
deriving DecidableEq, Repr

/-- `info.error?.message || info.error?.name || 'Media processing failed'`. -/
def mediaProcessingErrMsg (i : ProcessingInfo) : String :=
  match i.error with
  | none => "Media processing failed"
  | some e =>
    match truthyOpt e.message with
    | some m => m
    | none =>
      match truthyOpt e.name with
      | some n => n
      | none => "Media processing failed"

/-- `const chunkSize = 5 * 1024 * 1024`. -/
def uploadChunkSize : Nat := 5 * 1024 * 1024

/-- Number of APPEND iterations of
`for (offset = 0; offset < byteLength; offset += chunkSize)`. -/
def uploadChunkCount (byteLength : Nat) : Nat :=
  (byteLength + uploadChunkSize - 1) / uploadChunkSize

/-- The APPEND loop of `uploadMedia`: one fetch per chunk; a non-2xx response
returns the HTTP failure result, a thrown fetch aborts to the surrounding
catch.  Returns the early-return result (if any) and the next fetch index. -/
def appendChunks (oracle : Nat → FetchOutcome UploadBody) :
    Nat → Nat → Except String (Option UploadMediaResult × Nat)
  | 0, idx => .ok (none, idx)
  | n + 1, idx =>
    match oracle idx with
    | .thrown m => .error m
    | .resp s t _b =>
      if httpOk s then appendChunks oracle n (idx + 1)
      else .ok (some (.fail (httpErrorMsg s t)), idx + 1)

/-- The `while (attempts < 20)` STATUS-polling loop of `uploadMedia`: a
`failed` state returns the processing failure, a non-2xx STATUS response the
HTTP failure; a missing `processing_info` or a `succeeded` state breaks out;
the sleep is dropped.  The fuel is the remaining iteration budget, 20 at
entry. -/
def pollLoop (oracle : Nat → FetchOutcome UploadBody) :
    Nat → Nat → ProcessingInfo → Except String (Option UploadMediaResult × Nat)
  | 0, idx, _ => .ok (none, idx)
  | fuel + 1, idx, info =>
    if info.state = some "failed" then
      .ok (some (.fail (mediaProcessingErrMsg info)), idx)
    else
      match oracle idx with
      | .thrown m => .error m
      | .resp s t b =>
        if httpOk s then
          match b.processing_info with
          | none => .ok (none, idx + 1)
          | some info' =>
            if info'.state = some "succeeded" then .ok (none, idx + 1)
            else pollLoop oracle fuel (idx + 1) info'
        else .ok (some (.fail (httpErrorMsg s t)), idx + 1)

/-- The alt-text metadata step of `uploadMedia`: performed only for a truthy
`alt` on an image; a non-2xx response is the HTTP failure, otherwise the
media id is returned. -/
def uploadAltStep (oracle : Nat → FetchOutcome UploadBody) (mimeType : String)
    (alt : Option String) (mediaId : String) (idx : Nat) :
    Except String UploadMediaResult :=
  match truthyOpt alt with
  | some _ =>
    if strStartsWith mimeType "image/" then
      match oracle idx with
      | .thrown m => .error m
      | .resp s t _b =>
        if httpOk s then .ok (.ok mediaId) else .ok (.fail (httpErrorMsg s t))
    else .ok (.ok mediaId)
  | none => .ok (.ok mediaId)

/-- The body of `uploadMedia`'s try block
(src/lib/twitter-client-media.ts): INIT (media id extraction with JS
truthiness), the APPEND chunk loop, FINALIZE, the STATUS polling loop when
the processing state is truthy and not `succeeded`, and the alt-text step.
A `.error` is a thrown fetch escaping to the surrounding catch; the media
payload is represented by its byte length, the only part of it that affects
control flow. -/
def uploadMediaInner (oracle : Nat → FetchOutcome UploadBody) (byteLength : Nat)
    (mimeType : String) (alt : Option String) : Except String UploadMediaResult :=
  match oracle 0 with
  | .thrown m => .error m
  | .resp s t b =>
    if httpOk s then
      match truthyOpt (match b.media_id_string with
        | some v => some v
        | none => b.media_id) with
      | none => .ok (.fail "Media upload INIT did not return media_id")
      | some mediaId =>
        match appendChunks oracle (uploadChunkCount byteLength) 1 with
        | .error m => .error m
        | .ok (some r, _) => .ok r
        | .ok (none, idx) =>
          match oracle idx with
          | .thrown m => .error m
          | .resp s2 t2 b2 =>
            if httpOk s2 then
              match (match b2.processing_info with
                | some info =>
                  match truthyOpt info.state with
                  | some st =>
                    if st = "succeeded" then
                      (.ok (none, idx + 1) :
                        Except String (Option UploadMediaResult × Nat))
                    else pollLoop oracle 20 (idx + 1) info
                  | none => .ok (none, idx + 1)
                | none => .ok (none, idx + 1)) with
              | .error m => .error m
              | .ok (some r, _) => .ok r
              | .ok (none, idx2) => uploadAltStep oracle mimeType alt mediaId idx2
            else .ok (.fail (httpErrorMsg s2 t2))
    else .ok (.fail (httpErrorMsg s t))

/-- `uploadMedia` (src/lib/twitter-client-media.ts): unsupported mime types
fail before any fetch; everything else runs inside one try/catch that
converts a thrown fetch into `{ success: false, error }`. -/
def uploadMedia (oracle : Nat → FetchOutcome UploadBody) (byteLength : Nat)
    (mimeType : String) (alt : Option String) : UploadMediaResult :=
  match mediaCategoryForMime mimeType with
  | none => .fail ("Unsupported media type: " ++ mimeType)
  | some _category =>
    match uploadMediaInner oracle byteLength mimeType alt with
    | .ok r => r
    | .error m => .fail m

/-- `UserLookupResult`: a successful lookup always carries a truthy user id
and username (and possibly a name); a failure carries an error string. -/
inductive UserLookupResult where
  | ok (userId username : String) (name : Option String)
  | fail (error : String)
deriving DecidableEq, Repr

/-- Parsed body of a `UserByScreenName` response, the optional chains
`data.data?.user?.result?...` flattened to optional leaves. -/
structure UserByScreenNameBody where
  typename : Option String
  rest_id : Option String
  legacy_screen_name : Option String
  legacy_name : Option String
  core_screen_name : Option String
  core_name : Option String
  errors : List String
deriving DecidableEq, Repr

/-- Parsed body of a REST `users/show.json` response; `id` is kept as the
raw number so that JS truthiness (`data.id ? String(data.id) : null`) is
modelled exactly. -/
structure ShowUserBody where
  id_str : Option String
  id : Option Nat
  screen_name : Option String
  name : Option String
deriving DecidableEq, Repr

/-- Occurrence of one character list inside another: a prefix here or an
occurrence further right. -/
def listContainsSub (pat : List Char) : List Char → Bool
  | [] => pat.isEmpty
  | c :: rest => List.isPrefixOf pat (c :: rest) || listContainsSub pat rest

/-- `s.includes(pat)`, realised on the character lists so that it reduces by
kernel evaluation. -/
def includesSubstr (s pat : String) : Bool :=
  listContainsSub pat.data s.data

/-- The query-id loop of `getUserByScreenNameGraphQL`
(src/lib/twitter-client-user-lookup.ts): each attempt is individually
try/caught, a thrown fetch only setting `lastError`; HTTP 404 records
`HTTP 404` and tries the next id, other HTTP errors record the status and
text; on 2xx, `UserUnavailable` returns the not-found failure, a truthy
`rest_id` plus a truthy `legacy ?? core` screen name returns success, a
non-empty error list or an unparsable body records it and continues.  After
the loop the last error (or a default) is returned as the failure. -/
def userByScreenNameLoop (oracle : Nat → FetchOutcome UserByScreenNameBody)
    (screenName : String) :
    List String → Nat → Option String → UserLookupResult
  | [], _, lastError => .fail (lastError.getD "Unknown error looking up user")
  | _qid :: rest, idx, lastError =>
    match oracle idx with
    | .thrown m => userByScreenNameLoop oracle screenName rest (idx + 1) (some m)
    | .resp s t b =>
      if httpOk s then
        if b.typename = some "UserUnavailable" then
          .fail ("User @" ++ screenName ++ " not found or unavailable")
        else
          match truthyOpt b.rest_id,
              truthyOpt (match b.legacy_screen_name with
                | some v => some v
                | none => b.core_screen_name) with
          | some userId, some username =>
            .ok userId username
              (match b.legacy_name with
                | some v => some v
                | none => b.core_name)
          | _, _ =>
            if b.errors.isEmpty then
              userByScreenNameLoop oracle screenName rest (idx + 1)
                (some "Could not parse user data from response")
            else
              userByScreenNameLoop oracle screenName rest (idx + 1)
                (some (String.intercalate ", " b.errors))
      else if s = 404 then
        userByScreenNameLoop oracle screenName rest (idx + 1)
          (some ("HTTP " ++ toString s))
      else
        userByScreenNameLoop oracle screenName rest (idx + 1)
          (some (httpErrorMsg s t))

/-- `getUserByScreenNameGraphQL`: the loop over the three baked-in
`UserByScreenName` query ids. -/
def getUserByScreenNameGraphQL (oracle : Nat → FetchOutcome UserByScreenNameBody)
    (screenName : String) : UserLookupResult :=
  userByScreenNameLoop oracle screenName
    ["xc8f1g7BYqr6VTzTbvNlGw", "qW5u-DAuXpMEG0zA1F7UGQ", "sLVLhk0bGj3MVFEKTdax1w"]
    0 none

/-- The REST-fallback loop of `getUserIdByUsername`: two endpoints, each
attempt individually try/caught (a thrown fetch only sets `lastError`);
HTTP 404 returns the definitive not-found failure, other HTTP errors record
and continue; on 2xx, the user id is `id_str ?? (id ? String(id) : null)`
tested for truthiness.  Only the number of endpoints affects the result, so
the URLs stand without their query strings. -/
def restUserLookupLoop (oracle : Nat → FetchOutcome ShowUserBody)
    (cleanUsername : String) :
    List String → Nat → Option String → UserLookupResult
  | [], _, lastError => .fail (lastError.getD "Unknown error looking up user")
  | _url :: rest, idx, lastError =>
    match oracle idx with
    | .thrown m => restUserLookupLoop oracle cleanUsername rest (idx + 1) (some m)
    | .resp s t b =>
      if httpOk s then
        match truthyOpt (match b.id_str with
          | some v => some v
          | none =>
            match b.id with
            | some n => if n = 0 then none else some (toString n)
            | none => none) with
        | none =>
          restUserLookupLoop oracle cleanUsername rest (idx + 1)
            (some "Could not parse user ID from response")
        | some userId => .ok userId (b.screen_name.getD cleanUsername) b.name
      else if s = 404 then
        .fail ("User @" ++ cleanUsername ++ " not found")
      else
        restUserLookupLoop oracle cleanUsername rest (idx + 1)
          (some (httpErrorMsg s t))

/-- `getUserIdByUsername` (src/lib/twitter-client-user-lookup.ts):
`normalizeHandle` lives in normalize-handle.ts, which is not among the
sources, so it is passed in; only its falsiness is used.  A falsy normalized
handle fails before any fetch; the GraphQL lookup's success or definitive
not-found answer is returned as-is, any other failure falls back to the REST
loop with the GraphQL error as the initial `lastError`. -/
def getUserIdByUsername (normalizeHandle : String → String)
    (gqlOracle : Nat → FetchOutcome UserByScreenNameBody)
    (restOracle : Nat → FetchOutcome ShowUserBody)
    (username : String) : UserLookupResult :=
  let cleanUsername := normalizeHandle username
  if cleanUsername = "" then .fail ("Invalid username: " ++ username)
  else
    match getUserByScreenNameGraphQL gqlOracle cleanUsername with
    | .ok userId uname nm => .ok userId uname nm
    | .fail e =>
      if includesSubstr e "not found or unavailable" then .fail e
      else
        restUserLookupLoop restOracle cleanUsername
          ["https://x.com/i/api/1.1/users/show.json",
            "https://api.twitter.com/1.1/users/show.json"]
          0 (some e)

/-- `about_profile` of an `AboutAccountQuery` response. -/
structure AboutProfileFields where
  account_based_in : Option String
  source : Option String
  created_country_accurate : Option Bool
  location_accurate : Option Bool
  learn_more_url : Option String
deriving DecidableEq, Repr

/-- Parsed body of an `AboutAccountQuery` response. -/
structure AboutBody where
  about_profile : Option AboutProfileFields
  errors : List String
deriving DecidableEq, Repr

/-- `AboutAccountResult`:
`{ success: true, aboutProfile } | { success: false, error }`. -/
inductive AboutAccountResult where
  | ok (aboutProfile : AboutProfileFields)
  | fail (error : String)
deriving DecidableEq, Repr

/-- Result of one `tryOnce` pass inside `getUserAboutAccount`, carrying the
`had404` flag the retry wrapper inspects. -/
inductive AboutTryOnceResult where
  | ok (aboutProfile : AboutProfileFields) (had404 : Bool)
  | fail (error : String) (had404 : Bool)
deriving DecidableEq, Repr

/-- `getAboutAccountQueryIds`:
`Array.from(new Set([primary, 'zs_jFPFT78rBpXv9Z3U2YQ']))`. -/
def getAboutAccountQueryIds (primary : String) : List String :=
  if primary = "zs_jFPFT78rBpXv9Z3U2YQ" then [primary]
  else [primary, "zs_jFPFT78rBpXv9Z3U2YQ"]

/-- The query-id loop of `tryOnce` inside `getUserAboutAccount`: each
attempt individually try/caught (a thrown fetch only sets `lastError`);
HTTP 404 sets `had404` and continues, other HTTP errors record and continue;
on 2xx a non-empty error list or a missing `about_profile` records and
continues, otherwise the profile is returned with the accumulated `had404`.
The pair's second component is the next fetch index, letting a second pass
continue the same oracle. -/
def aboutTryOnceLoop (oracle : Nat → FetchOutcome AboutBody) :
    List String → Nat → Option String → Bool → AboutTryOnceResult × Nat
  | [], idx, lastError, had404 =>
    (.fail (lastError.getD "Unknown error fetching account details") had404, idx)
  | _qid :: rest, idx, lastError, had404 =>
    match oracle idx with
    | .thrown m => aboutTryOnceLoop oracle rest (idx + 1) (some m) had404
    | .resp s t b =>
      if httpOk s then
        if b.errors.isEmpty then
          match b.about_profile with
          | some p => (.ok p had404, idx + 1)
          | none =>
            aboutTryOnceLoop oracle rest (idx + 1)
              (some "Missing about_profile in response") had404
        else
          aboutTryOnceLoop oracle rest (idx + 1)
            (some (String.intercalate ", " b.errors)) had404
      else if s = 404 then
        aboutTryOnceLoop oracle rest (idx + 1) (some ("HTTP " ++ toString s)) true
      else
        aboutTryOnceLoop oracle rest (idx + 1) (some (httpErrorMsg s t)) had404

/-- One `tryOnce` pass over the about-account query ids, starting at the
given fetch index. -/
def aboutTryOnce (oracle : Nat → FetchOutcome AboutBody) (primary : String)
    (startIdx : Nat) : AboutTryOnceResult × Nat :=
  aboutTryOnceLoop oracle (getAboutAccountQueryIds primary) startIdx none false

/-- `getUserAboutAccount` (src/lib/twitter-client-user-lookup.ts).
`normalizeHandle` is passed in as for `getUserIdByUsername`.  The
`withRefreshedQueryIdsOn404` wrapper is modelled from the spec: its
implementation is not among the sources, and per spec section 4.3 a failure
that saw an HTTP 404 forces a best-effort query-id refresh (no observable
effect on this model's cache) and retries `tryOnce` once, whose result is
final; any other first result stands. -/
def getUserAboutAccount (normalizeHandle : String → String)
    (oracle : Nat → FetchOutcome AboutBody) (primary : String)
    (username : String) : AboutAccountResult :=
  let cleanUsername := normalizeHandle username
  if cleanUsername = "" then .fail ("Invalid username: " ++ username)
  else
    let first := aboutTryOnce oracle primary 0
    let result :=
      match first.1 with
      | .fail _ true => (aboutTryOnce oracle primary first.2).1
      | r => r
    match result with
    | .ok p _ => .ok p
    | .fail e _ => .fail e

/-- Modelled from the spec: a paginated read's `fetchPage` closure (the
list/timeline modules carrying them, e.g. twitter-client-lists.ts, are not
among the sources).  Per spec sections 4.2 and 4.6 the closure performs one
request and parses it, and a thrown fetch or an HTTP error is caught there
and converted into the page-failure shape consumed by `paginateCursor`. -/
def listFetchPage {T : Type} (oracle : Nat → FetchOutcome (List T × Option String))
    (callIdx : Nat) (_cursor : Option String) : CursorPage T :=
  match oracle callIdx with
  | .thrown m => .err m
  | .resp s t b => if httpOk s then .ok b.1 b.2 else .err (httpErrorMsg s t)

/-- Upload oracle whose every fetch throws. -/
def uploadThrowOracle : Nat → FetchOutcome UploadBody :=
  fun _ => .thrown "network down"

/-- UserByScreenName oracle whose every fetch throws. -/
def gqlLookupThrowOracle : Nat → FetchOutcome UserByScreenNameBody :=
  fun _ => .thrown "network down"

/-- REST users/show oracle whose every fetch throws. -/
def restLookupThrowOracle : Nat → FetchOutcome ShowUserBody :=
  fun _ => .thrown "network down"

/-- About-account oracle whose every fetch throws. -/
def aboutThrowOracle : Nat → FetchOutcome AboutBody :=
  fun _ => .thrown "network down"

/-- List-page oracle whose every fetch throws. -/
def listThrowOracle : Nat → FetchOutcome (List String × Option String) :=
  fun _ => .thrown "network down"

theorem dedupFold_append {T : Type} (getKey : T → String)
    (st : List String × List T) (l1 l2 : List T) :
    dedupFold getKey st (l1 ++ l2) = dedupFold getKey (dedupFold getKey st l1) l2 :=
  List.foldl_append _ _ _ _

theorem dedupFold_eq {T : Type} (getKey : T → String) :
    ∀ (l : List T) (seen : List String) (items : List T),
      dedupFold getKey (seen, items) l =
        (((firstOccurAux getKey seen l).map getKey).reverse ++ seen,
          items ++ firstOccurAux getKey seen l) := by
  intro l
  induction l with
  | nil => intro seen items; simp [dedupFold, firstOccurAux]
  | cons x xs ih =>
    intro seen items
    have hfold : dedupFold getKey (seen, items) (x :: xs) =
        dedupFold getKey (dedupStep getKey (seen, items) x) xs := rfl
    by_cases h : getKey x ∈ seen
    · rw [hfold]
      have hstep : dedupStep getKey (seen, items) x = (seen, items) := by
        simp [dedupStep, h]
      rw [hstep, ih, firstOccurAux]
      simp [h]
    · rw [hfold]
      have hstep : dedupStep getKey (seen, items) x = (getKey x :: seen, items ++ [x]) := by
        simp [dedupStep, h]
      rw [hstep, ih, firstOccurAux]
      simp [h]

theorem firstOccurAux_fresh_nodup {T : Type} (getKey : T → String) :
    ∀ (l : List T) (seen : List String),
      (∀ x ∈ firstOccurAux getKey seen l, getKey x ∉ seen) ∧
        ((firstOccurAux getKey seen l).map getKey).Nodup := by
  intro l
  induction l with
  | nil => intro seen; simp [firstOccurAux]
  | cons x xs ih =>
    intro seen
    by_cases h : getKey x ∈ seen
    · rw [firstOccurAux]
      simp only [h, if_true]
      exact ih seen
    · rw [firstOccurAux]
      simp only [h, if_false]
      constructor
      · intro y hy
        rcases List.mem_cons.mp hy with rfl | hy'
        · exact h
        · intro hc
          exact (ih (getKey x :: seen)).1 y hy' (List.mem_cons_of_mem _ hc)
      · rw [List.map_cons, List.nodup_cons]
        constructor
        · intro hc
          rcases List.mem_map.mp hc with ⟨y, hy, hkey⟩
          exact (ih (getKey x :: seen)).1 y hy (hkey ▸ List.mem_cons_self _ _)
        · exact (ih (getKey x :: seen)).2

theorem consumedOf_append {T : Type} :
    ∀ (l1 l2 : List (Option String × CursorPage T)),
      consumedOf (l1 ++ l2) = consumedOf l1 ++ consumedOf l2 := by
  intro l1 l2
  induction l1 with
  | nil => simp [consumedOf]
  | cons e rest ih =>
    obtain ⟨c, p⟩ := e
    cases p with
    | ok its pc => simp [consumedOf, ih]
    | err msg => simp [consumedOf, ih]

theorem pagesIn_append {T : Type} :
    ∀ (l1 l2 : List (Option String × CursorPage T)),
      pagesIn (l1 ++ l2) = pagesIn l1 + pagesIn l2 := by
  intro l1 l2
  induction l1 with
  | nil => simp [pagesIn]
  | cons e rest ih =>
    obtain ⟨c, p⟩ := e
    cases p with
    | ok its pc => simp [pagesIn, ih]; omega
    | err msg => simp [pagesIn, ih]

theorem paginateLoop_items {T : Type} (getKey : T → String)
    (fetchPage : Nat → Option String → CursorPage T) (maxPages : Option Nat) :
    ∀ (fuel callIdx pagesFetched : Nat) (seen : List String) (items : List T)
      (cursor : Option String) (log : List (Option String × CursorPage T))
      (t : PagTrace T),
      paginateLoop getKey fetchPage maxPages fuel callIdx pagesFetched seen
          items cursor log = some t →
      (seen, items) = dedupFold getKey ([], []) (consumedOf log) →
      itemsOf t.result = (dedupFold getKey ([], []) (consumedOf t.log)).2 ∧
      (∀ cur e, t.log.getLast? = some (cur, .err e) →
        ((dedupFold getKey ([], []) (consumedOf t.log)).2 = [] →
          t.result = .fail e none none) ∧
        ((dedupFold getKey ([], []) (consumedOf t.log)).2 ≠ [] →
          t.result =
            .fail e (some ((dedupFold getKey ([], []) (consumedOf t.log)).2)) cur)) := by
  intro fuel
  induction fuel with
  | zero =>
    intro callIdx pagesFetched seen items cursor log t h
    simp [paginateLoop] at h
  | succ fuel ih =>
    intro callIdx pagesFetched seen items cursor log t h hst
    have hitems : items = (dedupFold getKey ([], []) (consumedOf log)).2 := by
      rw [← hst]
    cases hfp : fetchPage callIdx cursor with
    | err e =>
      simp only [paginateLoop, hfp] at h
      have hcons : consumedOf (log ++ [(cursor, CursorPage.err e)]) =
          consumedOf log := by
        rw [consumedOf_append]; simp [consumedOf]
      by_cases hemp : items.isEmpty
      · rw [if_pos hemp] at h
        have hnil : items = [] := List.isEmpty_iff.mp hemp
        cases h
        refine ⟨?_, ?_⟩
        · simp [itemsOf, hcons, ← hitems, hnil]
        · intro cur e' hlast
          simp only [List.getLast?_concat] at hlast
          have hcur : cur = cursor := by
            cases hlast; rfl
          have he : e' = e := by
            cases hlast; rfl
          subst hcur; subst he
          refine ⟨fun _ => rfl, fun hne => ?_⟩
          rw [hcons, ← hitems, hnil] at hne
          exact absurd rfl hne
      · rw [if_neg hemp] at h
        have hnonnil : items ≠ [] := by
          intro hnil
          exact hemp (by simp [hnil])
        cases h
        refine ⟨?_, ?_⟩
        · simp [itemsOf, hcons, ← hitems]
        · intro cur e' hlast
          simp only [List.getLast?_concat] at hlast
          have hcur : cur = cursor := by cases hlast; rfl
          have he : e' = e := by cases hlast; rfl
          subst hcur; subst he
          refine ⟨fun h0 => ?_, fun _ => ?_⟩
          · rw [hcons, ← hitems] at h0
            exact absurd h0 hnonnil
          · rw [hcons, ← hitems]
    | ok pageItems pageCursor =>
      simp only [paginateLoop, hfp] at h
      have hcons : consumedOf (log ++ [(cursor, CursorPage.ok pageItems pageCursor)]) =
          consumedOf log ++ pageItems := by
        rw [consumedOf_append]; simp [consumedOf]
      have hfold : dedupFold getKey ([], [])
          (consumedOf (log ++ [(cursor, CursorPage.ok pageItems pageCursor)])) =
          dedupFold getKey (seen, items) pageItems := by
        rw [hcons, dedupFold_append, ← hst]
      split at h
      · cases h
        refine ⟨?_, ?_⟩
        · simp [itemsOf, hfold]
        · intro cur e hlast
          simp only [List.getLast?_concat] at hlast
          cases hlast
      · split at h
        · cases h
          refine ⟨?_, ?_⟩
          · simp [itemsOf, hfold]
          · intro cur e hlast
            simp only [List.getLast?_concat] at hlast
            cases hlast
        · have hst' : ((dedupFold getKey (seen, items) pageItems).1,
              (dedupFold getKey (seen, items) pageItems).2) =
              dedupFold getKey ([], [])
                (consumedOf (log ++ [(cursor, CursorPage.ok pageItems pageCursor)])) := by
            rw [hfold]
          exact ih _ _ _ _ _ _ _ h hst'

theorem paginateLoop_count {T : Type} (getKey : T → String)
    (fetchPage : Nat → Option String → CursorPage T) (N : Nat) :
    ∀ (fuel callIdx pagesFetched : Nat) (seen : List String) (items : List T)
      (cursor : Option String) (log : List (Option String × CursorPage T))
      (t : PagTrace T),
      paginateLoop getKey fetchPage (some N) fuel callIdx pagesFetched seen
          items cursor log = some t →
      pagesFetched = pagesIn log →
      pagesFetched < N →
      t.log.length ≤ log.length + (N - pagesFetched) ∧
      (∀ its c, t.result = .ok its (some c) →
        pagesIn t.log = N ∧
        ∃ cur pits, t.log.getLast? = some (cur, .ok pits (some c)) ∧
          ¬((some c : Option String) = none ∨ some c = some "" ∨ some c = cur)) ∧
      (∀ its, t.result = .ok its none →
        ∃ cur pits pc, t.log.getLast? = some (cur, .ok pits pc) ∧
          (pc = none ∨ pc = some "" ∨ pc = cur)) := by
  intro fuel
  induction fuel with
  | zero =>
    intro callIdx pagesFetched seen items cursor log t h
    simp [paginateLoop] at h
  | succ fuel ih =>
    intro callIdx pagesFetched seen items cursor log t h hcount hlt
    cases hfp : fetchPage callIdx cursor with
    | err e =>
      simp only [paginateLoop, hfp] at h
      by_cases hemp : items.isEmpty
      · rw [if_pos hemp] at h
        cases h
        refine ⟨by simp; omega, ?_, ?_⟩
        · intro its c heq; cases heq
        · intro its heq; cases heq
      · rw [if_neg hemp] at h
        cases h
        refine ⟨by simp; omega, ?_, ?_⟩
        · intro its c heq; cases heq
        · intro its heq; cases heq
    | ok pageItems pageCursor =>
      simp only [paginateLoop, hfp] at h
      split at h
      case isTrue hstall =>
        cases h
        refine ⟨by simp; omega, ?_, ?_⟩
        · intro its c heq; cases heq
        · intro its heq
          exact ⟨cursor, pageItems, pageCursor, by simp [List.getLast?_concat], hstall⟩
      case isFalse hstall =>
        split at h
        case isTrue hmax =>
          have hreach : N ≤ pagesFetched + 1 := by
            simpa [maxPagesReached] using hmax
          cases h
          refine ⟨by simp; omega, ?_, ?_⟩
          · intro its c heq
            have hpc : pageCursor = some c := by cases heq; rfl
            subst hpc
            refine ⟨?_, cursor, pageItems, by simp [List.getLast?_concat], hstall⟩
            rw [pagesIn_append]
            simp [pagesIn, ← hcount]
            omega
          · intro its heq
            have hpc : pageCursor = none := by cases heq; rfl
            exact absurd (Or.inl hpc) hstall
        case isFalse hmax =>
          have hnreach : pagesFetched + 1 < N := by
            have := hmax
            simp [maxPagesReached] at this
            omega
          have hcount' : pagesFetched + 1 =
              pagesIn (log ++ [(cursor, CursorPage.ok pageItems pageCursor)]) := by
            rw [pagesIn_append]
            simp [pagesIn, ← hcount]
          obtain ⟨h1, h2, h3⟩ := ih _ _ _ _ _ _ _ h hcount' hnreach
          refine ⟨?_, h2, h3⟩
          have hlen : (log ++ [(cursor, CursorPage.ok pageItems pageCursor)]).length =
              log.length + 1 := by simp
          omega

theorem dedupFold_nil_snd {T : Type} (getKey : T → String) (l : List T) :
    (dedupFold getKey ([], []) l).2 = firstOccur getKey l := by
  rw [dedupFold_eq]
  simp [firstOccur]

theorem paginateLoop_shape {T : Type} (getKey : T → String)
    (fetchPage : Nat → Option String → CursorPage T) (maxPages : Option Nat) :
    ∀ (fuel callIdx pagesFetched : Nat) (seen : List String) (items : List T)
      (cursor : Option String) (log : List (Option String × CursorPage T))
      (t : PagTrace T),
      paginateLoop getKey fetchPage maxPages fuel callIdx pagesFetched seen
          items cursor log = some t →
      (∀ e oits nc, t.result = .fail e oits nc →
        ∃ cur msg, t.log.getLast? = some (cur, CursorPage.err msg)) ∧
      (∀ its, t.result = .ok its none →
        ∃ cur pits pc, t.log.getLast? = some (cur, .ok pits pc) ∧
          (pc = none ∨ pc = some "" ∨ pc = cur)) ∧
      (∀ its c, t.result = .ok its (some c) →
        ∃ cur pits, t.log.getLast? = some (cur, .ok pits (some c)) ∧
          ¬((some c : Option String) = none ∨ some c = some "" ∨ some c = cur)) := by
  intro fuel
  induction fuel with
  | zero =>
    intro callIdx pagesFetched seen items cursor log t h
    simp [paginateLoop] at h
  | succ fuel ih =>
    intro callIdx pagesFetched seen items cursor log t h
    cases hfp : fetchPage callIdx cursor with
    | err e =>
      simp only [paginateLoop, hfp] at h
      by_cases hemp : items.isEmpty
      · rw [if_pos hemp] at h
        cases h
        refine ⟨?_, ?_, ?_⟩
        · intro e' oits nc _
          exact ⟨cursor, e, by simp [List.getLast?_concat]⟩
        · intro its heq; cases heq
        · intro its c heq; cases heq
      · rw [if_neg hemp] at h
        cases h
        refine ⟨?_, ?_, ?_⟩
        · intro e' oits nc _
          exact ⟨cursor, e, by simp [List.getLast?_concat]⟩
        · intro its heq; cases heq
        · intro its c heq; cases heq
    | ok pageItems pageCursor =>
      simp only [paginateLoop, hfp] at h
      split at h
      case isTrue hstall =>
        cases h
        refine ⟨?_, ?_, ?_⟩
        · intro e oits nc heq; cases heq
        · intro its heq
          exact ⟨cursor, pageItems, pageCursor, by simp [List.getLast?_concat], hstall⟩
        · intro its c heq; cases heq
      case isFalse hstall =>
        split at h
        case isTrue hmax =>
          cases h
          refine ⟨?_, ?_, ?_⟩
          · intro e oits nc heq; cases heq
          · intro its heq
            have hpc : pageCursor = none := by cases heq; rfl
            exact absurd (Or.inl hpc) hstall
          · intro its c heq
            have hpc : pageCursor = some c := by cases heq; rfl
            subst hpc
            exact ⟨cursor, pageItems, by simp [List.getLast?_concat], hstall⟩
        case isFalse hmax =>
          exact ih _ _ _ _ _ _ _ h

/-- C1: over any sequence of pages, the items returned by `paginateCursor`
are exactly the first-occurrence deduplication (by the caller-supplied
identity key) of the items the successful pages served, in encounter order,
and hence carry no two items with the same key: each item occupies the
position of its first occurrence and later occurrences on subsequent pages
neither move nor replace it. -/
theorem paginateCursor_no_duplicate_keys {T : Type} (getKey : T → String)
    (fetchPage : Nat → Option String → CursorPage T) (maxPages : Option Nat)
    (startCursor : Option String) (fuel : Nat) (t : PagTrace T)
    (h : paginateCursor getKey fetchPage maxPages startCursor fuel = some t) :
    itemsOf t.result = firstOccur getKey (consumedOf t.log) ∧
      ((itemsOf t.result).map getKey).Nodup := by
  have hst : (([] : List String), ([] : List T)) =
      dedupFold getKey ([], []) (consumedOf ([] : List (Option String × CursorPage T))) := by
    simp [consumedOf, dedupFold]
  have hinv :=
    paginateLoop_items getKey fetchPage maxPages fuel 0 0 [] [] startCursor [] t h hst
  have h1 := hinv.1
  rw [dedupFold_nil_snd] at h1
  refine ⟨h1, ?_⟩
  rw [h1]
  exact (firstOccurAux_fresh_nodup getKey (consumedOf t.log) []).2

/-- C1 witness: a two-page run in which page 2 re-serves `b`; the returned
items are `a, b, c` with `b` kept at its first position. -/
theorem paginateCursor_no_duplicate_keys_witness :
    itemsOf (PagResult.ok ["a", "b", "c"] (none : Option String)) =
        firstOccur (fun s : String => s) ["a", "b", "b", "c"] ∧
      ((itemsOf (PagResult.ok ["a", "b", "c"] (none : Option String))).map
          (fun s : String => s)).Nodup :=
  paginateCursor_no_duplicate_keys (fun s => s) exOracle none none 5
    ⟨PagResult.ok ["a", "b", "c"] none,
      [(none, CursorPage.ok ["a", "b"] (some "c1")),
        (some "c1", CursorPage.ok ["b", "c"] none)]⟩ rfl

/-- C2 (amended: the page limit must be positive; a zero limit still fetches
one page): with a positive page limit N, at most N page-fetches occur; a
final page whose cursor is absent, empty, or equal to the one just used ends
the run with success and no `nextCursor` (the stall check is decided before
the page-limit check); and a returned `nextCursor` means all N fetches
succeeded and the cursor is exactly the fresh cursor of the N-th page. -/
theorem paginateCursor_page_limit {T : Type} (getKey : T → String)
    (fetchPage : Nat → Option String → CursorPage T) (N : Nat)
    (startCursor : Option String) (fuel : Nat) (t : PagTrace T)
    (hN : 1 ≤ N)
    (h : paginateCursor getKey fetchPage (some N) startCursor fuel = some t) :
    t.log.length ≤ N ∧
    (∀ cur pits pc, t.log.getLast? = some (cur, .ok pits pc) →
      (pc = none ∨ pc = some "" ∨ pc = cur) →
      ∃ its, t.result = PagResult.ok its none) ∧
    (∀ its c, t.result = PagResult.ok its (some c) →
      pagesIn t.log = N ∧
      ∃ cur pits, t.log.getLast? = some (cur, .ok pits (some c)) ∧
        ¬((some c : Option String) = none ∨ some c = some "" ∨ some c = cur)) := by
  have hcount :=
    paginateLoop_count getKey fetchPage N fuel 0 0 [] [] startCursor [] t h rfl
      (by omega)
  have hshape :=
    paginateLoop_shape getKey fetchPage (some N) fuel 0 0 [] [] startCursor [] t h
  refine ⟨by simpa using hcount.1, ?_, ?_⟩
  · intro cur pits pc hlast hstall
    cases hres : t.result with
    | ok its nc =>
      cases nc with
      | none => exact ⟨its, rfl⟩
      | some c =>
        obtain ⟨cur', pits', hlast', hnstall⟩ := hshape.2.2 its c hres
        rw [hlast] at hlast'
        have hcur : cur' = cur := by cases hlast'; rfl
        have hpc : pc = some c := by cases hlast'; rfl
        subst hcur; subst hpc
        exact absurd hstall hnstall
    | fail e oits nc =>
      obtain ⟨cur', msg, hlast'⟩ := (hshape.1) e oits nc hres
      rw [hlast] at hlast'
      cases hlast'
  · exact hcount.2.1

/-- C2 witness: `exOracle` with page limit 1 stops after one fetch and
resumes at that page's cursor. -/
theorem paginateCursor_page_limit_witness :
    1 ≤ 1 ∧
      ((⟨PagResult.ok ["a", "b"] (some "c1"),
          [(none, CursorPage.ok ["a", "b"] (some "c1"))]⟩ : PagTrace String).log.length ≤ 1) :=
  ⟨by decide,
    (paginateCursor_page_limit (fun s => s) exOracle 1 none 5
      ⟨PagResult.ok ["a", "b"] (some "c1"),
        [(none, CursorPage.ok ["a", "b"] (some "c1"))]⟩ (by decide) rfl).1⟩

/-- C2 counterexample: with a supplied page limit of 0, one page-fetch still
occurs (the limit is only checked after a successful fetch), so "at most N
page-fetches" fails at N = 0. -/
theorem paginateCursor_limit_zero_cex :
    (paginateCursor (fun s : String => s) onePageOracle (some 0) none 5).map
        (fun t => t.log.length) = some 1 ∧ ¬(1 ≤ 0) :=
  ⟨rfl, by decide⟩

/-- C4: when a page fetch fails, the result carries the failing page's error;
with zero accumulated items the page's failure is returned verbatim (no
items, no cursor), and with at least one accumulated item the result is the
partial-success shape: the deduplicated items so far plus the cursor that was
used for the failing fetch. -/
theorem paginateCursor_partial_failure {T : Type} (getKey : T → String)
    (fetchPage : Nat → Option String → CursorPage T) (maxPages : Option Nat)
    (startCursor : Option String) (fuel : Nat) (t : PagTrace T)
    (cur : Option String) (e : String)
    (h : paginateCursor getKey fetchPage maxPages startCursor fuel = some t)
    (hlast : t.log.getLast? = some (cur, CursorPage.err e)) :
    (firstOccur getKey (consumedOf t.log) = [] →
      t.result = PagResult.fail e none none) ∧
    (firstOccur getKey (consumedOf t.log) ≠ [] →
      t.result = PagResult.fail e (some (firstOccur getKey (consumedOf t.log))) cur) := by
  have hst : (([] : List String), ([] : List T)) =
      dedupFold getKey ([], []) (consumedOf ([] : List (Option String × CursorPage T))) := by
    simp [consumedOf, dedupFold]
  have hinv :=
    paginateLoop_items getKey fetchPage maxPages fuel 0 0 [] [] startCursor [] t h hst
  have hB := hinv.2 cur e hlast
  rw [dedupFold_nil_snd] at hB
  exact hB

/-- C4 witness: after one page yielding `a`, the second fetch fails with
`boom`; the result is the partial-success shape carrying `a` and the cursor
used for the failing fetch. -/
theorem paginateCursor_partial_failure_witness :
    firstOccur (fun s : String => s) ["a"] ≠ [] ∧
      PagResult.fail "boom" (some ["a"]) (some "c1") =
        PagResult.fail "boom" (some (firstOccur (fun s : String => s) ["a"])) (some "c1") :=
  ⟨by decide,
    (paginateCursor_partial_failure (fun s => s) failOracle none none 5
      ⟨PagResult.fail "boom" (some ["a"]) (some "c1"),
        [(none, CursorPage.ok ["a"] (some "c1")), (some "c1", CursorPage.err "boom")]⟩
      (some "c1") "boom" rfl rfl).2 (by decide)⟩

/-- C3: the paginator has no stop-on-no-new-items termination check.  In the
spec's scenario B (page 1 serves `dup` with cursor `p2`; page 2 serves `dup`
again with the fresh cursor `p3`) the code does not stop after page 2: it
advances to `p3` and performs a third fetch, and when no third page exists it
returns the partial-failure shape instead of the claimed
`{ success: true, items: [dup], nextCursor: undefined }`.  This contradicts
the repository's own test `stops when a page only returns duplicates`. -/
theorem paginateCursor_scenarioB_keeps_fetching :
    paginateCursor (fun s : String => s) scenarioBOracle none none 10 =
      some ⟨PagResult.fail "no page" (some ["dup"]) (some "p3"),
        [(none, CursorPage.ok ["dup"] (some "p2")),
          (some "p2", CursorPage.ok ["dup"] (some "p3")),
          (some "p3", CursorPage.err "no page")]⟩ ∧
      ¬(PagResult.fail "no page" (some ["dup"]) (some "p3") =
          PagResult.ok ["dup"] (none : Option String)) :=
  ⟨rfl, by decide⟩

theorem httpOk_ne_404 {s : Nat} (h : httpOk s = true) : s ≠ 404 := by
  intro hs
  subst hs
  simp [httpOk] at h

theorem handleCreateBody_urls_ext (env : PostEnv) (vars : TweetVars)
    (b : CreateTweetBody) (urls : List String) :
    ∃ ext, (handleCreateBody env vars b urls).urls = urls ++ ext := by
  unfold handleCreateBody
  by_cases hb : b.errors.isEmpty
  · simp only [hb, if_true]
    cases extractTweetIdFromResponse b with
    | some id => exact ⟨[], by simp⟩
    | none =>
      cases truthyOpt vars.tweet_text with
      | some tt =>
        cases env.verify with
        | some vid => exact ⟨[], by simp⟩
        | none => exact ⟨[], by simp⟩
      | none => exact ⟨[], by simp⟩
  · simp only [hb, if_false]
    rcases htf : tryStatusUpdateFallback env b.errors vars with ⟨fb, n⟩
    by_cases hn : n = 0
    · cases fb with
      | some res => exact ⟨[], by simp [htf, hn]⟩
      | none => exact ⟨[], by simp [htf, hn]⟩
    · cases fb with
      | some res => exact ⟨[TWITTER_STATUS_UPDATE_URL], by simp [htf, hn]⟩
      | none => exact ⟨[TWITTER_STATUS_UPDATE_URL], by simp [htf, hn]⟩

/-- C5 (amended: two 404s in a row produce three fetch attempts, not two; the
two-attempt success scenario has the 404 occurring once): for `createTweet`
and every engagement mutation, a first-attempt HTTP 404 leads to a retry at
the URL rebuilt from the re-resolved (post-refresh) query id; a second 404
leads to exactly one final attempt against the generic GraphQL POST endpoint;
and when the first attempt is a 404 and the rebuilt retry succeeds, exactly 2
fetch attempts are recorded and the final result is a success. -/
theorem write_404_retry_policy :
    (∀ (env : PostEnv) (vars : TweetVars) (q1 q2 t1 : String) (b1 : CreateTweetBody),
      env.fetches 0 = .resp 404 t1 b1 →
      (createTweet env vars q1 q2).urls.take 2 =
        [TWITTER_API_BASE ++ "/" ++ q1 ++ "/CreateTweet",
          TWITTER_API_BASE ++ "/" ++ q2 ++ "/CreateTweet"]) ∧
    (∀ (env : PostEnv) (vars : TweetVars) (q1 q2 t1 t2 : String)
        (b1 b2 : CreateTweetBody),
      env.fetches 0 = .resp 404 t1 b1 →
      env.fetches 1 = .resp 404 t2 b2 →
      (createTweet env vars q1 q2).urls.take 3 =
        [TWITTER_API_BASE ++ "/" ++ q1 ++ "/CreateTweet",
          TWITTER_API_BASE ++ "/" ++ q2 ++ "/CreateTweet",
          TWITTER_GRAPHQL_POST_URL]) ∧
    (∀ (env : PostEnv) (vars : TweetVars) (q1 q2 t1 t2 id : String)
        (b1 b2 : CreateTweetBody) (s2 : Nat),
      env.fetches 0 = .resp 404 t1 b1 →
      env.fetches 1 = .resp s2 t2 b2 →
      httpOk s2 = true →
      b2.errors = [] →
      extractTweetIdFromResponse b2 = some id →
      createTweet env vars q1 q2 =
        ⟨.ok id,
          [TWITTER_API_BASE ++ "/" ++ q1 ++ "/CreateTweet",
            TWITTER_API_BASE ++ "/" ++ q2 ++ "/CreateTweet"], 0⟩) ∧
    (∀ (env : EngEnv) (opName q1 q2 t1 : String) (b1 : EngBody),
      env.fetches 0 = .resp 404 t1 b1 →
      (performEngagementMutation env opName q1 q2).urls.take 2 =
        [TWITTER_API_BASE ++ "/" ++ q1 ++ "/" ++ opName,
          TWITTER_API_BASE ++ "/" ++ q2 ++ "/" ++ opName]) ∧
    (∀ (env : EngEnv) (opName q1 q2 t1 t2 : String) (b1 b2 : EngBody),
      env.fetches 0 = .resp 404 t1 b1 →
      env.fetches 1 = .resp 404 t2 b2 →
      (performEngagementMutation env opName q1 q2).urls =
        [TWITTER_API_BASE ++ "/" ++ q1 ++ "/" ++ opName,
          TWITTER_API_BASE ++ "/" ++ q2 ++ "/" ++ opName,
          TWITTER_GRAPHQL_POST_URL]) ∧
    (∀ (env : EngEnv) (opName q1 q2 t1 t2 : String) (b1 b2 : EngBody) (s2 : Nat),
      env.fetches 0 = .resp 404 t1 b1 →
      env.fetches 1 = .resp s2 t2 b2 →
      httpOk s2 = true →
      b2.errors = [] →
      performEngagementMutation env opName q1 q2 =
        ⟨.ok,
          [TWITTER_API_BASE ++ "/" ++ q1 ++ "/" ++ opName,
            TWITTER_API_BASE ++ "/" ++ q2 ++ "/" ++ opName]⟩) := by
  refine ⟨?_, ?_, ?_, ?_, ?_, ?_⟩
  · intro env vars q1 q2 t1 b1 hf0
    simp only [createTweet, hf0]
    rw [if_pos trivial]
    cases hf1 : env.fetches 1 with
    | thrown m => simp
    | resp s2 t2 b2 =>
      dsimp only
      by_cases h404 : s2 = 404
      · subst h404
        rw [if_pos rfl]
        cases hf2 : env.fetches 2 with
        | thrown m => simp
        | resp s3 t3 b3 =>
          dsimp only
          by_cases hok3 : httpOk s3 = true
          · rw [if_pos hok3]
            obtain ⟨ext, hext⟩ := handleCreateBody_urls_ext env vars b3
              [TWITTER_API_BASE ++ "/" ++ q1 ++ "/CreateTweet",
                TWITTER_API_BASE ++ "/" ++ q2 ++ "/CreateTweet",
                TWITTER_GRAPHQL_POST_URL]
            rw [hext]
            rfl
          · rw [if_neg hok3]
            rfl
      · rw [if_neg h404]
        by_cases hok2 : httpOk s2 = true
        · rw [if_pos hok2]
          obtain ⟨ext, hext⟩ := handleCreateBody_urls_ext env vars b2
            [TWITTER_API_BASE ++ "/" ++ q1 ++ "/CreateTweet",
              TWITTER_API_BASE ++ "/" ++ q2 ++ "/CreateTweet"]
          rw [hext]
          rfl
        · rw [if_neg hok2]
          rfl
  · intro env vars q1 q2 t1 t2 b1 b2 hf0 hf1
    simp only [createTweet, hf0]
    rw [if_pos trivial]
    simp only [hf1]
    rw [if_pos trivial]
    cases hf2 : env.fetches 2 with
    | thrown m => simp
    | resp s3 t3 b3 =>
      dsimp only
      by_cases hok3 : httpOk s3 = true
      · rw [if_pos hok3]
        obtain ⟨ext, hext⟩ := handleCreateBody_urls_ext env vars b3
          [TWITTER_API_BASE ++ "/" ++ q1 ++ "/CreateTweet",
            TWITTER_API_BASE ++ "/" ++ q2 ++ "/CreateTweet",
            TWITTER_GRAPHQL_POST_URL]
        rw [hext]
        rfl
      · rw [if_neg hok3]
        rfl
  · intro env vars q1 q2 t1 t2 id b1 b2 s2 hf0 hf1 hok2 herr hx
    simp only [createTweet, hf0]
    rw [if_pos trivial]
    simp only [hf1]
    rw [if_neg (httpOk_ne_404 hok2), if_pos hok2]
    simp [handleCreateBody, herr, hx]
  · intro env opName q1 q2 t1 b1 hf0
    simp only [performEngagementMutation, hf0]
    rw [if_pos trivial]
    cases hf1 : env.fetches 1 with
    | thrown m => simp
    | resp s2 t2 b2 =>
      dsimp only
      by_cases h404 : s2 = 404
      · subst h404
        rw [if_pos rfl]
        cases hf2 : env.fetches 2 with
        | thrown m => simp
        | resp s3 t3 b3 => simp
      · rw [if_neg h404]
        rfl
  · intro env opName q1 q2 t1 t2 b1 b2 hf0 hf1
    simp only [performEngagementMutation, hf0]
    rw [if_pos trivial]
    simp only [hf1]
    rw [if_pos trivial]
    cases hf2 : env.fetches 2 with
    | thrown m => simp [hf2]
    | resp s3 t3 b3 => simp [hf2]
  · intro env opName q1 q2 t1 t2 b1 b2 s2 hf0 hf1 hok2 herr
    simp only [performEngagementMutation, hf0]
    rw [if_pos trivial]
    simp only [hf1]
    rw [if_neg (httpOk_ne_404 hok2)]
    simp [engParse, hok2, herr]

/-- C5 witness: with one 404 and a successful rebuilt retry, exactly two
fetches are recorded (at the q1- and q2-addressed URLs) and the result is a
success, for both the posting and an engagement path. -/
theorem write_404_retry_policy_witness :
    createTweet env404once varsHi "q1" "q2" =
        ⟨TweetResult.ok "42",
          [TWITTER_API_BASE ++ "/" ++ "q1" ++ "/CreateTweet",
            TWITTER_API_BASE ++ "/" ++ "q2" ++ "/CreateTweet"], 0⟩ ∧
      performEngagementMutation engEnv404 "FavoriteTweet" "q1" "q2" =
        ⟨MutationResult.ok,
          [TWITTER_API_BASE ++ "/" ++ "q1" ++ "/" ++ "FavoriteTweet",
            TWITTER_API_BASE ++ "/" ++ "q2" ++ "/" ++ "FavoriteTweet"]⟩ :=
  ⟨write_404_retry_policy.2.2.1 env404once varsHi "q1" "q2" "Not found" "" "42"
      ⟨[], none⟩ (okCreateBody "42") 200 rfl rfl (by decide) rfl rfl,
    write_404_retry_policy.2.2.2.2.2 engEnv404 "FavoriteTweet" "q1" "q2"
      "Not found" "" ⟨[]⟩ ⟨[]⟩ 200 rfl rfl (by decide) rfl⟩

/-- C5 counterexample: when the write endpoint answers HTTP 404 twice in a
row, three fetch attempts are recorded, not the two the claim states. -/
theorem write_404_twice_three_attempts_cex :
    (createTweet env404twice varsHi "q1" "q2").urls.length = 3 ∧ ¬((3 : Nat) = 2) :=
  ⟨rfl, by decide⟩

/-- C6 (amended: the fallback additionally requires the GraphQL variables to
carry a truthy (nonempty) tweet text; with an empty text it is skipped): when
a 2xx create-tweet response carries an error list, an error with code 226
plus a truthy text triggers the legacy fallback exactly once — its success
becomes the overall success with its tweet id, and its failure yields the
original errors and the fallback error concatenated — while without any code
226 the fallback is never invoked and the formatted original errors are
returned. -/
theorem createTweet_fallback_226 :
    ∀ (env : PostEnv) (vars : TweetVars) (q1 q2 tx : String) (s : Nat)
      (b : CreateTweetBody),
      env.fetches 0 = .resp s tx b →
      httpOk s = true →
      b.errors ≠ [] →
      ((b.errors.any (fun e => e.code = some 226) = false →
          (createTweet env vars q1 q2).fallbackCalls = 0 ∧
          (createTweet env vars q1 q2).result = .fail (formatErrors b.errors)) ∧
        (b.errors.any (fun e => e.code = some 226) = true →
          ∀ tt, vars.tweet_text = some tt → tt ≠ "" →
            (createTweet env vars q1 q2).fallbackCalls = 1 ∧
            (∀ id, postStatusUpdate env.statusUpdate = .ok id →
              (createTweet env vars q1 q2).result = .ok id) ∧
            (∀ ferr, postStatusUpdate env.statusUpdate = .fail ferr →
              (createTweet env vars q1 q2).result =
                .fail (formatErrors b.errors ++ " | fallback: " ++ ferr)))) := by
  intro env vars q1 q2 tx s b hf0 hok herr
  have hne : s ≠ 404 := httpOk_ne_404 hok
  have hrun : createTweet env vars q1 q2 =
      handleCreateBody env vars b [TWITTER_API_BASE ++ "/" ++ q1 ++ "/CreateTweet"] := by
    simp only [createTweet, hf0]
    rw [if_neg hne, if_pos hok]
  have hempty : b.errors.isEmpty = false := by
    cases hb : b.errors with
    | nil => exact absurd hb herr
    | cons x xs => simp
  constructor
  · intro h226
    have htf : tryStatusUpdateFallback env b.errors vars = (none, 0) := by
      simp [tryStatusUpdateFallback, h226]
    rw [hrun]
    simp [handleCreateBody, hempty, htf]
  · intro h226 tt htt httne
    have hinput : statusUpdateInputFromCreateTweetVariables vars =
        some (tt, vars.in_reply_to_tweet_id, vars.media_ids) := by
      simp [statusUpdateInputFromCreateTweetVariables, htt, httne]
    cases hps : postStatusUpdate env.statusUpdate with
    | ok id0 =>
      have htf : tryStatusUpdateFallback env b.errors vars = (some (.ok id0), 1) := by
        simp [tryStatusUpdateFallback, h226, hinput, hps]
      refine ⟨?_, ?_, ?_⟩
      · rw [hrun]; simp [handleCreateBody, hempty, htf]
      · intro id hid
        cases hid
        rw [hrun]; simp [handleCreateBody, hempty, htf]
      · intro ferr hferr
        cases hferr
    | fail fe =>
      have htf : tryStatusUpdateFallback env b.errors vars =
          (some (.fail (formatErrors b.errors ++ " | fallback: " ++ fe)), 1) := by
        simp [tryStatusUpdateFallback, h226, hinput, hps]
      refine ⟨?_, ?_, ?_⟩
      · rw [hrun]; simp [handleCreateBody, hempty, htf]
      · intro id hid
        cases hid
      · intro ferr hferr
        cases hferr
        rw [hrun]; simp [handleCreateBody, hempty, htf]

/-- C6 witness: a 2xx response carrying error code 226 with a nonempty tweet
text invokes the fallback exactly once, and its success ("777") becomes the
overall result. -/
theorem createTweet_fallback_226_witness :
    (createTweet env226 varsHi "q1" "q2").fallbackCalls = 1 ∧
      (createTweet env226 varsHi "q1" "q2").result = TweetResult.ok "777" := by
  have h := (createTweet_fallback_226 env226 varsHi "q1" "q2" "" 200
      ⟨[⟨"Automated request", some 226⟩], none⟩ rfl (by decide) (by decide)).2
      (by decide) "hi" rfl (by decide)
  exact ⟨h.1, h.2.1 "777" rfl⟩

/-- C6 counterexample: with error code 226 present but an empty tweet text
(`tweet("")`), the fallback is invoked zero times, not once. -/
theorem createTweet_fallback_226_empty_text_cex :
    (createTweet env226 varsEmpty "q1" "q2").fallbackCalls = 0 ∧ ¬((0 : Nat) = 1) :=
  ⟨rfl, by decide⟩

/-- C7: for an operation name with no entry in the live runtime query-id
cache, `getQueryId` returns the baked-in default from the static table and
leaves the cache unchanged; calling it again on the returned cache yields the
same answer (idempotent, deterministic resolution). -/
theorem getQueryId_default_idempotent (queryIdDefaults : String → String)
    (cache : List (String × String)) (op : String)
    (h : lookupQueryId cache op = none) :
    getQueryId queryIdDefaults cache op = (queryIdDefaults op, cache) ∧
      getQueryId queryIdDefaults (getQueryId queryIdDefaults cache op).2 op =
        (queryIdDefaults op, cache) := by
  constructor <;> simp [getQueryId, runtimeGetQueryId, h]

/-- C7 witness: a cache holding only `TweetDetail` resolves `CreateTweet` to
the default and is not mutated. -/
theorem getQueryId_default_idempotent_witness :
    lookupQueryId [("TweetDetail", "x")] "CreateTweet" = none ∧
      getQueryId (fun _ => "DEF") [("TweetDetail", "x")] "CreateTweet" =
        ("DEF", [("TweetDetail", "x")]) :=
  ⟨rfl,
    (getQueryId_default_idempotent (fun _ => "DEF") [("TweetDetail", "x")]
      "CreateTweet" rfl).1⟩

/-- C8: no public operation lets a thrown fetch (network/transport error or
timeout abort) escape: across tweet creation, every engagement mutation
(including the legacy fallback fetch), media upload, the user-lookup
methods, and a paginated read, a throw at any fetch is caught at its call
site and converted into a `success: false` result carrying the error (or,
in the per-attempt loops of the lookup methods, recorded and surfaced as the
final error), never propagated as an exception. -/
theorem write_paths_never_throw :
    (∀ (env : PostEnv) (vars : TweetVars) (q1 q2 m : String),
      env.fetches 0 = .thrown m → (createTweet env vars q1 q2).result = .fail m) ∧
    (∀ (env : PostEnv) (vars : TweetVars) (q1 q2 m t1 : String) (b1 : CreateTweetBody),
      env.fetches 0 = .resp 404 t1 b1 → env.fetches 1 = .thrown m →
      (createTweet env vars q1 q2).result = .fail m) ∧
    (∀ (env : PostEnv) (vars : TweetVars) (q1 q2 m t1 t2 : String)
        (b1 b2 : CreateTweetBody),
      env.fetches 0 = .resp 404 t1 b1 → env.fetches 1 = .resp 404 t2 b2 →
      env.fetches 2 = .thrown m →
      (createTweet env vars q1 q2).result = .fail m) ∧
    (∀ (env : EngEnv) (opName q1 q2 m : String),
      env.fetches 0 = .thrown m →
      (performEngagementMutation env opName q1 q2).result = .fail m) ∧
    (∀ (env : EngEnv) (opName q1 q2 m t1 : String) (b1 : EngBody),
      env.fetches 0 = .resp 404 t1 b1 → env.fetches 1 = .thrown m →
      (performEngagementMutation env opName q1 q2).result = .fail m) ∧
    (∀ (env : EngEnv) (opName q1 q2 m t1 t2 : String) (b1 b2 : EngBody),
      env.fetches 0 = .resp 404 t1 b1 → env.fetches 1 = .resp 404 t2 b2 →
      env.fetches 2 = .thrown m →
      (performEngagementMutation env opName q1 q2).result = .fail m) ∧
    (∀ (env : PostEnv) (vars : TweetVars) (q1 q2 m tx tt : String) (s : Nat)
        (b : CreateTweetBody),
      env.fetches 0 = .resp s tx b → httpOk s = true →
      b.errors.any (fun e => e.code = some 226) = true →
      vars.tweet_text = some tt → tt ≠ "" →
      env.statusUpdate = .thrown m →
      (createTweet env vars q1 q2).result =
        .fail (formatErrors b.errors ++ " | fallback: " ++ m)) ∧
    (∀ (oracle : Nat → FetchOutcome UploadBody) (byteLength : Nat)
        (mimeType cat m : String) (alt : Option String),
      mediaCategoryForMime mimeType = some cat →
      uploadMediaInner oracle byteLength mimeType alt = .error m →
      uploadMedia oracle byteLength mimeType alt = .fail m) ∧
    (∀ (oracle : Nat → FetchOutcome UploadBody) (byteLength : Nat)
        (mimeType cat m : String) (alt : Option String),
      mediaCategoryForMime mimeType = some cat →
      oracle 0 = .thrown m →
      uploadMedia oracle byteLength mimeType alt = .fail m) ∧
    (∀ (oracle : Nat → FetchOutcome UserByScreenNameBody) (sn m0 m1 m2 : String),
      oracle 0 = .thrown m0 → oracle 1 = .thrown m1 → oracle 2 = .thrown m2 →
      getUserByScreenNameGraphQL oracle sn = .fail m2) ∧
    (∀ (normalizeHandle : String → String)
        (gqlOracle : Nat → FetchOutcome UserByScreenNameBody)
        (restOracle : Nat → FetchOutcome ShowUserBody)
        (username m0 m1 m2 r0 r1 : String),
      normalizeHandle username ≠ "" →
      gqlOracle 0 = .thrown m0 → gqlOracle 1 = .thrown m1 →
      gqlOracle 2 = .thrown m2 →
      includesSubstr m2 "not found or unavailable" = false →
      restOracle 0 = .thrown r0 → restOracle 1 = .thrown r1 →
      getUserIdByUsername normalizeHandle gqlOracle restOracle username = .fail r1) ∧
    (∀ (normalizeHandle : String → String)
        (oracle : Nat → FetchOutcome AboutBody) (primary username m0 m1 : String),
      normalizeHandle username ≠ "" →
      primary ≠ "zs_jFPFT78rBpXv9Z3U2YQ" →
      oracle 0 = .thrown m0 → oracle 1 = .thrown m1 →
      getUserAboutAccount normalizeHandle oracle primary username = .fail m1) ∧
    (∀ (T : Type) (getKey : T → String)
        (oracle : Nat → FetchOutcome (List T × Option String))
        (maxPages : Option Nat) (startCursor : Option String) (fuel : Nat)
        (m : String),
      oracle 0 = .thrown m →
      paginateCursor getKey (listFetchPage oracle) maxPages startCursor (fuel + 1) =
        some ⟨.fail m none none, [(startCursor, CursorPage.err m)]⟩) := by
  refine ⟨?_, ?_, ?_, ?_, ?_, ?_, ?_, ?_, ?_, ?_, ?_, ?_, ?_⟩
  · intro env vars q1 q2 m hf0
    simp [createTweet, hf0]
  · intro env vars q1 q2 m t1 b1 hf0 hf1
    simp only [createTweet, hf0]
    rw [if_pos trivial]
    simp [hf1]
  · intro env vars q1 q2 m t1 t2 b1 b2 hf0 hf1 hf2
    simp only [createTweet, hf0]
    rw [if_pos trivial]
    simp only [hf1]
    rw [if_pos trivial]
    simp [hf2]
  · intro env opName q1 q2 m hf0
    simp [performEngagementMutation, hf0]
  · intro env opName q1 q2 m t1 b1 hf0 hf1
    simp only [performEngagementMutation, hf0]
    rw [if_pos trivial]
    simp [hf1]
  · intro env opName q1 q2 m t1 t2 b1 b2 hf0 hf1 hf2
    simp only [performEngagementMutation, hf0]
    rw [if_pos trivial]
    simp only [hf1]
    rw [if_pos trivial]
    simp [hf2]
  · intro env vars q1 q2 m tx tt s b hf0 hok h226 htt httne hsu
    have herr : b.errors ≠ [] := by
      intro hnil
      rw [hnil] at h226
      simp at h226
    have hps : postStatusUpdate env.statusUpdate = .fail m := by
      rw [hsu]
      rfl
    exact (createTweet_fallback_226 env vars q1 q2 tx s b hf0 hok herr).2 h226 tt
      htt httne |>.2.2 m hps
  · intro oracle byteLength mimeType cat m alt hcat hinner
    unfold uploadMedia
    rw [hcat, hinner]
  · intro oracle byteLength mimeType cat m alt hcat h0
    have hinner : uploadMediaInner oracle byteLength mimeType alt = .error m := by
      unfold uploadMediaInner
      rw [h0]
    unfold uploadMedia
    rw [hcat, hinner]
  · intro oracle sn m0 m1 m2 h0 h1 h2
    unfold getUserByScreenNameGraphQL
    simp only [userByScreenNameLoop, h0, h1, h2, Option.getD]
  · intro normalizeHandle gqlOracle restOracle username m0 m1 m2 r0 r1
      hne h0 h1 h2 hinc hr0 hr1
    have hgql : getUserByScreenNameGraphQL gqlOracle (normalizeHandle username) =
        .fail m2 := by
      unfold getUserByScreenNameGraphQL
      simp only [userByScreenNameLoop, h0, h1, h2, Option.getD]
    have hninc : ¬(includesSubstr m2 "not found or unavailable" = true) := by
      simp [hinc]
    unfold getUserIdByUsername
    dsimp only
    rw [if_neg hne, hgql]
    dsimp only
    rw [if_neg hninc]
    simp only [restUserLookupLoop, hr0, hr1, Option.getD]
  · intro normalizeHandle oracle primary username m0 m1 hne hprim h0 h1
    have hids : getAboutAccountQueryIds primary =
        [primary, "zs_jFPFT78rBpXv9Z3U2YQ"] := by
      simp [getAboutAccountQueryIds, hprim]
    have htry : aboutTryOnce oracle primary 0 =
        (AboutTryOnceResult.fail m1 false, 2) := by
      unfold aboutTryOnce
      rw [hids]
      simp only [aboutTryOnceLoop, h0, h1, Option.getD]
    unfold getUserAboutAccount
    dsimp only
    rw [if_neg hne, htry]
  · intro T getKey oracle maxPages startCursor fuel m h0
    have hfp : listFetchPage oracle 0 startCursor = CursorPage.err m := by
      unfold listFetchPage
      rw [h0]
    unfold paginateCursor
    simp only [paginateLoop, hfp, List.isEmpty_nil, List.nil_append, if_true]

/-- C8 witness: a thrown network error surfaces as a failure result carrying
the message for the posting, engagement, media-upload, user-lookup,
about-account, and paginated-read paths. -/
theorem write_paths_never_throw_witness :
    (createTweet envThrow varsHi "q1" "q2").result = TweetResult.fail "network down" ∧
      (performEngagementMutation engEnvThrow "FavoriteTweet" "q1" "q2").result =
        MutationResult.fail "network down" ∧
      uploadMedia uploadThrowOracle 10 "image/png" none =
        UploadMediaResult.fail "network down" ∧
      getUserIdByUsername (fun s => s) gqlLookupThrowOracle restLookupThrowOracle
          "alice" = UserLookupResult.fail "network down" ∧
      getUserAboutAccount (fun s => s) aboutThrowOracle "q1" "alice" =
        AboutAccountResult.fail "network down" ∧
      paginateCursor (fun s : String => s) (listFetchPage listThrowOracle) none
          none 5 =
        some ⟨PagResult.fail "network down" none none,
          [(none, CursorPage.err "network down")]⟩ := by
  obtain ⟨h1, _, _, h4, _, _, _, _, h9, _, h11, h12, h13⟩ := write_paths_never_throw
  refine ⟨h1 envThrow varsHi "q1" "q2" "network down" rfl,
    h4 engEnvThrow "FavoriteTweet" "q1" "q2" "network down" rfl,
    h9 uploadThrowOracle 10 "image/png" "tweet_image" "network down" none
      (by decide) rfl,
    h11 (fun s => s) gqlLookupThrowOracle restLookupThrowOracle "alice"
      "network down" "network down" "network down" "network down" "network down"
      (by decide) rfl rfl rfl (by decide) rfl rfl,
    h12 (fun s => s) aboutThrowOracle "q1" "alice" "network down" "network down"
      (by decide) (by decide) rfl rfl,
    h13 String (fun s => s) listThrowOracle none none 4 "network down" rfl⟩

/-- C9: a synthetic article whose stored title is `t` and whose rich content
is the single top-level heading block with text `t` renders to exactly the
markdown heading line `# t`, with no duplicated title line. -/
theorem extractArticleText_heading_title (t : String) :
    extractArticleText ⟨t, [⟨"header-one", t⟩]⟩ = "# " ++ t := by
  simp [extractArticleText, renderArticleBlock]
  rfl

/-- C10: constructing a client with a falsy `authToken` or `ct0` fails with
exactly the message `Both authToken and ct0 cookies are required`; a
successfully constructed client always holds the supplied, necessarily
nonempty, `authToken` and `ct0`. -/
theorem mkTwitterClientBase_requires_cookies (options : ClientOptions) :
    ((options.cookies.authToken = "" ∨ options.cookies.ct0 = "") →
      mkTwitterClientBase options =
        .error "Both authToken and ct0 cookies are required") ∧
    (∀ c, mkTwitterClientBase options = .ok c →
      c.authToken ≠ "" ∧ c.ct0 ≠ "" ∧
        c.authToken = options.cookies.authToken ∧
        c.ct0 = options.cookies.ct0) := by
  constructor
  · intro h
    simp [mkTwitterClientBase, h]
  · intro c hc
    by_cases h : options.cookies.authToken = "" ∨ options.cookies.ct0 = ""
    · simp [mkTwitterClientBase, h] at hc
    · rw [mkTwitterClientBase, if_neg h] at hc
      cases hc
      push_neg at h
      exact ⟨h.1, h.2, rfl, rfl⟩

/-- C10 witness: an empty `authToken` is rejected with the exact message, and
a client built from cookies `a`/`c` holds them. -/
theorem mkTwitterClientBase_requires_cookies_witness :
    mkTwitterClientBase ⟨⟨"", "c", none⟩, none, none⟩ =
        Except.error "Both authToken and ct0 cookies are required" ∧
      ("a" : String) ≠ "" :=
  ⟨(mkTwitterClientBase_requires_cookies ⟨⟨"", "c", none⟩, none, none⟩).1 (Or.inl rfl),
    ((mkTwitterClientBase_requires_cookies ⟨⟨"a", "c", none⟩, none, none⟩).2
      ⟨"a", "c", "auth_token=a; ct0=c", defaultUserAgent, none⟩ rfl).1⟩
